import Mathlib

/-!
Shallow embedding of the `mybuilder_apiautomation_framework` repository:
the authenticated HTTP client (`api_client.py`), the static test-data
catalog and payload builder (`tests/test_data.py`, `tests/payload_builder.py`),
the in-memory test logger (`tests/conftest.py` / `tests/playwright_conftest.py`)
and the HTML report generator (`tests/report_generator.py`).

Python dictionaries are modelled as ordered association lists, JSON response
bodies as an inductive `JValue`, wall-clock readings (`datetime.now()`) as
explicit string parameters, and the HTTP transport as an explicit function
argument so that request issuance is deterministic.
-/

namespace Spec2Proof

/-! ### Python dictionary primitives (ordered association lists) -/

/-- `d.get(k)`: the value stored at the first occurrence of key `k`. -/
def dGet (hs : List (String × String)) (k : String) : Option String :=
  (hs.find? (fun p => p.1 == k)).map (fun p => p.2)

/-- `d.update({k: v})`: replace the entry at `k` in place, or append it. -/
def dUpdate (hs : List (String × String)) (k v : String) : List (String × String) :=
  if hs.any (fun p => p.1 == k) then
    hs.map (fun p => if p.1 == k then (k, v) else p)
  else
    hs ++ [(k, v)]

/-- `d.pop(k, None)`: remove every entry stored at key `k`. -/
def dPop (hs : List (String × String)) (k : String) : List (String × String) :=
  hs.filter (fun p => p.1 != k)

/-- Python `s.rstrip("/")`: drop all trailing slash characters. -/
def rstripSlashes (s : String) : String :=
  String.mk ((s.data.reverse.dropWhile (fun c => c == '/')).reverse)

/-! ### JSON values (`resp.json()` results) -/

/-- A parsed JSON body, as returned by `resp.json()`. -/
inductive JValue where
  | null
  | bool (b : Bool)
  | num (n : Int)
  | str (s : String)
  | arr (items : List JValue)
  | obj (fields : List (String × JValue))
deriving Repr

/-- Python truthiness on JSON values: `None`, `False`, `0`, `""`, `[]` and
`{}` are falsy, everything else truthy (`if token:` / `or`). -/
def jFalsy : JValue → Bool
  | .null => true
  | .bool b => !b
  | .num n => n == 0
  | .str s => s.data.isEmpty
  | .arr items => items.isEmpty
  | .obj fields => fields.isEmpty

/-- Python `a or b` on JSON values: `b` when `a` is falsy, else `a`. -/
def pyOr (a b : JValue) : JValue :=
  if jFalsy a then b else a

/-- `d.get(k)` on a JSON dict's fields; `None` when the key is absent.
Callers must hold an actual dict — Python's `.get` does not exist on other
values (see `extractToken`). -/
def jGet (fields : List (String × JValue)) (k : String) : JValue :=
  ((fields.find? (fun p => p.1 == k)).map (fun p => p.2)).getD .null

/-- The Python type name of a parsed JSON value, as it appears in
`AttributeError` messages. -/
def pyTypeName : JValue → String
  | .null => "NoneType"
  | .bool _ => "bool"
  | .num _ => "int"
  | .str _ => "str"
  | .arr _ => "list"
  | .obj _ => "dict"

mutual

/-- Python `repr` of a parsed JSON value (dicts and lists render with
single-quoted strings; string escaping is not modelled since no catalog or
token value contains a quote). -/
def pyRepr : JValue → String
  | .null => "None"
  | .bool true => "True"
  | .bool false => "False"
  | .num n => toString n
  | .str s => String.mk ('\x27' :: s.data) ++ String.mk ['\x27']
  | .arr items => "[" ++ pyReprList items ++ "]"
  | .obj fields => String.mk ['\x7b'] ++ pyReprFields fields ++ String.mk ['\x7d']

/-- Comma-separated `repr` of list items. -/
def pyReprList : List JValue → String
  | [] => ""
  | [x] => pyRepr x
  | x :: xs => pyRepr x ++ ", " ++ pyReprList xs

/-- Comma-separated `repr` of dict entries. -/
def pyReprFields : List (String × JValue) → String
  | [] => ""
  | [(k, v)] => pyRepr (.str k) ++ ": " ++ pyRepr v
  | (k, v) :: xs => pyRepr (.str k) ++ ": " ++ pyRepr v ++ ", " ++ pyReprFields xs

end

/-- Python `str()` of a parsed JSON value, as used by the f-string
`f"Bearer {self.token}"`: a `str` renders as itself, everything else as its
`repr`. -/
def pyStr (v : JValue) : String :=
  match v with
  | .str s => s
  | v => pyRepr v

/-! ### `api_client.py` -/

/-- The single exception class `APIClientError`, split by the four raise
sites (`Authentication failed: {status} {text}`, `"timeout"`,
`"request failed"`, `"unauthorized"`). -/
inductive APIClientError where
  | authenticationFailed (status : Nat) (text : String)
  | timeout
  | requestFailed
  | unauthorized
deriving Repr, DecidableEq

/-- The spec's `RequestError` kind: the two failures raised by
`APIClient.request`'s `except` clauses. -/
def APIClientError.isRequestError : APIClientError → Bool
  | .timeout => true
  | .requestFailed => true
  | _ => false

/-- An HTTP response: status code, raw text, parsed JSON body. -/
structure HttpResponse where
  status : Nat
  text : String
  json : JValue
deriving Repr

/-- Outcome of one call into the underlying `requests` library. -/
inductive TransportOutcome where
  | success (resp : HttpResponse)
  | timedOut
  | connectionError
deriving Repr

/-- The underlying transport (`requests.Session.request`), as a function of
method, URL and timeout; the session's header state does not affect which
outcome constructor arises. -/
def Transport : Type := String → String → Nat → TransportOutcome

/-- `APIClient` state: base URL, timeout, current token (`None` initially,
possibly a non-string JSON value after `authenticate`), session headers. -/
structure APIClient where
  base_url : String
  timeout : Nat
  token : Option JValue
  headers : List (String × String)
deriving Repr

/-- `APIClient.__init__`: strips trailing slashes from the base URL, keeps
the timeout, starts with no token. -/
def APIClient.init (base_url : String) (timeout : Nat) : APIClient :=
  { base_url := rstripSlashes base_url
    timeout := timeout
    token := none
    headers := [] }

/-- `APIClient.set_token`: store the token; a truthy token installs
`Authorization: Bearer <token>`, a falsy one (`None` or `""`) pops the
header. -/
def APIClient.set_token (c : APIClient) (token : Option String) : APIClient :=
  { c with
    token := token.map JValue.str
    headers :=
      match token with
      | some t =>
          if t.data.isEmpty then dPop c.headers "Authorization"
          else dUpdate c.headers "Authorization" ("Bearer " ++ t)
      | none => dPop c.headers "Authorization" }

/-- Token extraction in `APIClient.authenticate`. The very first step,
`data.get("token")`, requires `data` to be a dict: on any other JSON value
Python raises `AttributeError` (no `.get` attribute) and `authenticate`
crashes. On a dict:
`data.get("token") or data.get("access_token") or data.get("data")`, then a
nested lookup when the result is a dict, then the whole body as fallback
when still falsy. -/
def extractToken (data : JValue) : Except String JValue :=
  match data with
  | .obj fields =>
    let token := pyOr (jGet fields "token") (pyOr (jGet fields "access_token") (jGet fields "data"))
    let token :=
      match token with
      | .obj nested => pyOr (jGet nested "token") (jGet nested "access_token")
      | t => t
    .ok (if jFalsy token then data else token)
  | other =>
    .error ("\x27" ++ pyTypeName other ++ "\x27 object has no attribute \x27get\x27")

/-- The login request issued by `authenticate`: `POST
{base_url}/api/Authenticate/Login` with JSON body
`{"userName": username, "password": password}`. -/
def loginUrl (c : APIClient) : String :=
  c.base_url ++ "/api/Authenticate/Login"

/-- What a call to `authenticate` can raise: the `APIClientError` it
raises itself on a non-200 status, or the uncaught `AttributeError` that
escapes from token extraction when the 200 body is not a JSON object. -/
inductive AuthRaise where
  | apiError (e : APIClientError)
  | attributeError (msg : String)
deriving Repr, DecidableEq

/-- `APIClient.authenticate`, as a function of the login response (the
result of posting `{"userName": username, "password": password}` to
`loginUrl` with the client's timeout): non-200 raises
`APIClientError("Authentication failed: {status} {text}")`; on 200, token
extraction runs (crashing with an uncaught `AttributeError` on a non-dict
body, before any state change), then the token is stored, the
`Authorization` header set from it, and the raw parsed body returned. -/
def APIClient.authenticate (c : APIClient) (resp : HttpResponse) :
    Except AuthRaise (APIClient × JValue) :=
  if resp.status != 200 then
    .error (.apiError (.authenticationFailed resp.status resp.text))
  else
    let data := resp.json
    match extractToken data with
    | .error msg => .error (.attributeError msg)
    | .ok token =>
      let c := { c with
        token := some token
        headers := dUpdate c.headers "Authorization" ("Bearer " ++ pyStr token) }
      .ok (c, data)

/-- Python `path.startswith(pre)`. -/
def pyStartswith (s pre : String) : Bool :=
  pre.data.isPrefixOf s.data

/-- The URL `request` targets: the path verbatim when it starts with
`"http"`, else base URL ++ path. -/
def urlFor (c : APIClient) (path : String) : String :=
  if pyStartswith path "http" then path else c.base_url ++ path

/-- `APIClient.request`: issue the request at `urlFor` with the client's
timeout; `requests.Timeout` becomes `APIClientError("timeout")`, any other
`requests.RequestException` becomes `APIClientError("request failed")`; a
delivered response is returned raw. -/
def APIClient.request (c : APIClient) (transport : Transport)
    (method path : String) : Except APIClientError HttpResponse :=
  match transport method (urlFor c path) c.timeout with
  | .success resp => .ok resp
  | .timedOut => .error .timeout
  | .connectionError => .error .requestFailed

/-- `APIClient.request_raise_on_unauthorized`: perform `request` and raise
`APIClientError("unauthorized")` on a 401 response. -/
def APIClient.request_raise_on_unauthorized (c : APIClient) (transport : Transport)
    (method path : String) : Except APIClientError HttpResponse :=
  match c.request transport method path with
  | .ok resp => if resp.status == 401 then .error .unauthorized else .ok resp
  | .error e => .error e

/-! ### `tests/test_data.py` -/

/-- One entry of the static test-data catalog. -/
structure TestCase where
  file_url : String
  file_type : String
  file_id : String
  builder_id : String
  entity_id : String
  description : String
deriving Repr, DecidableEq

/-- The static `TEST_CASES` catalog. -/
def TEST_CASES : List TestCase :=
  [ { file_url := "https://dc-eastus-dev-fs-func-001.azurewebsites.net/api/files/mybldr/projects/6576/files/875c043f-8312-4ead-838a-82181b9e1a5a"
      file_type := "community"
      file_id := "abcd1234"
      builder_id := "example"
      entity_id := "abcd1234"
      description := "Community guide PDF for Builder Alpha" },
    { file_url := "https://example.com/zoning-map.pdf"
      file_type := "zoning"
      file_id := "abcd1234"
      builder_id := "example"
      entity_id := "abcd1234"
      description := "Zoning map PDF for Builder Beta" },
    { file_url := "https://example.com/floorplan.png"
      file_type := "image"
      file_id := "abcd1234"
      builder_id := "example"
      entity_id := "abcd1234"
      description := "Floor plan image for Builder Gamma" },
    { file_url := "https://example.com/blueprint.docx"
      file_type := "blueprint"
      file_id := "abcd1234"
      builder_id := "example"
      entity_id := "abcd1234"
      description := "Blueprint document for Builder Delta" },
    { file_url := "https://example.com/brochure.pdf"
      file_type := "brochure"
      file_id := "abcd1234"
      builder_id := "example"
      entity_id := "abcd1234"
      description := "Marketing brochure for Builder Epsilon" } ]

/-- `get_test_case(file_id)`: first catalog entry with that `file_id`, or
`None`. -/
def get_test_case (file_id : String) : Option TestCase :=
  TEST_CASES.find? (fun case => case.file_id == file_id)

/-! ### `tests/payload_builder.py` -/

/-- A Python exception kind for the payload builder (`ValueError`). -/
inductive PyError where
  | valueError (msg : String)
deriving Repr, DecidableEq

/-- `PayloadBuilder.build_query_params(file_id)`: look the test case up and
return the five query parameters, raising
`ValueError(f"Test case not found for file_id: {file_id}")` when absent. -/
def build_query_params (file_id : String) :
    Except PyError (List (String × String)) :=
  match get_test_case file_id with
  | none => .error (.valueError ("Test case not found for file_id: " ++ file_id))
  | some test_case =>
      .ok [ ("file_url", test_case.file_url),
            ("file_type", test_case.file_type),
            ("file_id", test_case.file_id),
            ("builder_id", test_case.builder_id),
            ("entity_id", test_case.entity_id) ]

/-- `PayloadBuilder.build_query_params_custom`: the five parameters from
explicit arguments. -/
def build_query_params_custom (file_url file_type file_id builder_id entity_id : String) :
    List (String × String) :=
  [ ("file_url", file_url),
    ("file_type", file_type),
    ("file_id", file_id),
    ("builder_id", builder_id),
    ("entity_id", entity_id) ]

/-! ### `TestLogger` (`tests/conftest.py` and `tests/playwright_conftest.py`,
identical definitions) -/

/-- One appended log entry (`datetime.now().isoformat()` timestamps are
modelled as the strings they render to). -/
structure LogEntry where
  timestamp : String
  level : String
  message : String
deriving Repr, DecidableEq

/-- The logger state: the start-time string (`str(datetime.now())` at
construction) and the append-only entry list. -/
structure TestLogger where
  start_time : String
  logs : List LogEntry
deriving Repr, DecidableEq

/-- `TestLogger.log(message, level)`: append one timestamped entry (the
wall-clock reading is an explicit argument). -/
def TestLogger.log (lg : TestLogger) (now message level : String) : TestLogger :=
  { lg with logs := lg.logs ++ [{ timestamp := now, level := level, message := message }] }

/-- Python `str(n)` for a natural number, digit by digit from the right;
the first argument is recursion fuel (any amount at least the digit count
gives the full rendering, and `pyStrNat` passes enough). -/
def pyStrNatGo : Nat → Nat → List Char → List Char
  | 0, _, acc => acc
  | fuel + 1, n, acc =>
    if n < 10 then Char.ofNat (48 + n) :: acc
    else pyStrNatGo fuel (n / 10) (Char.ofNat (48 + n % 10) :: acc)

/-- Python `str` / f-string rendering of a non-negative integer. -/
def pyStrNat (n : Nat) : String :=
  String.mk (pyStrNatGo (n + 1) n [])

/-- The per-entry lines of `get_report`'s loop:
`f"[{log[\x27timestamp\x27]}] [{log[\x27level\x27]}] {log[\x27message\x27]}\n"` appended in
order. -/
def logLines : List LogEntry → String
  | [] => ""
  | e :: rest =>
      "[" ++ e.timestamp ++ "] [" ++ e.level ++ "] " ++ e.message ++ "\n" ++ logLines rest

/-- `TestLogger.get_report()`: header, start/end times, entry count, blank
separator, `Logs:` label, then one line per entry (the end-time wall-clock
reading is an explicit argument). -/
def TestLogger.get_report (lg : TestLogger) (end_time : String) : String :=
  "Test Execution Report\n"
    ++ "Start Time: " ++ lg.start_time ++ "\n"
    ++ "End Time: " ++ end_time ++ "\n"
    ++ "Total Logs: " ++ pyStrNat lg.logs.length ++ "\n\n"
    ++ "Logs:\n"
    ++ logLines lg.logs

/-- Number of newline characters in a string; since `get_report`'s output
ends in a newline this is its `len(report.splitlines())`. -/
def numLines (s : String) : Nat :=
  s.data.count '\n'

/-! ### `tests/report_generator.py` -/

/-- The triple-quoted `html` template of `generate_html_report`, verbatim
(the CSS braces are unescaped in the source, which matters below). -/
def htmlTemplate : String :=
  "\n" ++
  ("    <!DOCTYPE html>\n" ++
  ("    <html lang=\"en\">\n" ++
  ("    <head>\n" ++
  ("        <meta charset=\"UTF-8\">\n" ++
  ("        <meta name=\"viewport\" content=\"width=device-width, initial-scale=1.0\">\n" ++
  ("        <title>Playwright API Test Report</title>\n" ++
  ("        <style>\n" ++
  ("            body \x7b\n" ++
  ("                font-family: \x27Segoe UI\x27, Tahoma, Geneva, Verdana, sans-serif;\n" ++
  ("                margin: 20px;\n" ++
  ("                background-color: #f5f5f5;\n" ++
  ("            \x7d\n" ++
  ("            .container \x7b\n" ++
  ("                max-width: 1200px;\n" ++
  ("                margin: 0 auto;\n" ++
  ("                background: white;\n" ++
  ("                padding: 20px;\n" ++
  ("                border-radius: 8px;\n" ++
  ("                box-shadow: 0 2px 4px rgba(0,0,0,0.1);\n" ++
  ("            \x7d\n" ++
  ("            h1 \x7b\n" ++
  ("                color: #333;\n" ++
  ("                border-bottom: 3px solid #007bff;\n" ++
  ("                padding-bottom: 10px;\n" ++
  ("            \x7d\n" ++
  ("            .summary \x7b\n" ++
  ("                display: grid;\n" ++
  ("                grid-template-columns: repeat(auto-fit, minmax(200px, 1fr));\n" ++
  ("                gap: 15px;\n" ++
  ("                margin: 20px 0;\n" ++
  ("            \x7d\n" ++
  ("            .stat-card \x7b\n" ++
  ("                background: linear-gradient(135deg, #667eea 0%, #764ba2 100%);\n" ++
  ("                color: white;\n" ++
  ("                padding: 20px;\n" ++
  ("                border-radius: 8px;\n" ++
  ("                text-align: center;\n" ++
  ("            \x7d\n" ++
  ("            .stat-card.passed \x7b\n" ++
  ("                background: linear-gradient(135deg, #11998e 0%, #38ef7d 100%);\n" ++
  ("            \x7d\n" ++
  ("            .stat-card.failed \x7b\n" ++
  ("                background: linear-gradient(135deg, #eb3349 0%, #f45c43 100%);\n" ++
  ("            \x7d\n" ++
  ("            .stat-card.skipped \x7b\n" ++
  ("                background: linear-gradient(135deg, #fa709a 0%, #fee140 100%);\n" ++
  ("            \x7d\n" ++
  ("            .stat-number \x7b\n" ++
  ("                font-size: 32px;\n" ++
  ("                font-weight: bold;\n" ++
  ("                margin: 10px 0;\n" ++
  ("            \x7d\n" ++
  ("            .stat-label \x7b\n" ++
  ("                font-size: 14px;\n" ++
  ("                opacity: 0.9;\n" ++
  ("            \x7d\n" ++
  ("            .test-section \x7b\n" ++
  ("                margin: 30px 0;\n" ++
  ("            \x7d\n" ++
  ("            .test-case \x7b\n" ++
  ("                background: #f9f9f9;\n" ++
  ("                border-left: 4px solid #007bff;\n" ++
  ("                padding: 15px;\n" ++
  ("                margin: 10px 0;\n" ++
  ("                border-radius: 4px;\n" ++
  ("            \x7d\n" ++
  ("            .test-case.passed \x7b\n" ++
  ("                border-left-color: #28a745;\n" ++
  ("            \x7d\n" ++
  ("            .test-case.failed \x7b\n" ++
  ("                border-left-color: #dc3545;\n" ++
  ("            \x7d\n" ++
  ("            .test-name \x7b\n" ++
  ("                font-weight: bold;\n" ++
  ("                color: #333;\n" ++
  ("                margin-bottom: 5px;\n" ++
  ("            \x7d\n" ++
  ("            .test-status \x7b\n" ++
  ("                display: inline-block;\n" ++
  ("                padding: 4px 12px;\n" ++
  ("                border-radius: 20px;\n" ++
  ("                font-size: 12px;\n" ++
  ("                font-weight: bold;\n" ++
  ("                margin: 5px 0;\n" ++
  ("            \x7d\n" ++
  ("            .test-status.passed \x7b\n" ++
  ("                background: #d4edda;\n" ++
  ("                color: #155724;\n" ++
  ("            \x7d\n" ++
  ("            .test-status.failed \x7b\n" ++
  ("                background: #f8d7da;\n" ++
  ("                color: #721c24;\n" ++
  ("            \x7d\n" ++
  ("            .test-details \x7b\n" ++
  ("                background: white;\n" ++
  ("                padding: 10px;\n" ++
  ("                margin-top: 10px;\n" ++
  ("                border-radius: 4px;\n" ++
  ("                font-family: \x27Courier New\x27, monospace;\n" ++
  ("                font-size: 12px;\n" ++
  ("                max-height: 300px;\n" ++
  ("                overflow-y: auto;\n" ++
  ("            \x7d\n" ++
  ("            .request-response \x7b\n" ++
  ("                margin: 10px 0;\n" ++
  ("                padding: 10px;\n" ++
  ("                background: #f0f0f0;\n" ++
  ("                border-radius: 4px;\n" ++
  ("            \x7d\n" ++
  ("            .timestamp \x7b\n" ++
  ("                color: #666;\n" ++
  ("                font-size: 12px;\n" ++
  ("            \x7d\n" ++
  ("            footer \x7b\n" ++
  ("                margin-top: 40px;\n" ++
  ("                padding-top: 20px;\n" ++
  ("                border-top: 1px solid #ddd;\n" ++
  ("                color: #666;\n" ++
  ("                text-align: center;\n" ++
  ("                font-size: 12px;\n" ++
  ("            \x7d\n" ++
  ("        </style>\n" ++
  ("    </head>\n" ++
  ("    <body>\n" ++
  ("        <div class=\"container\">\n" ++
  ("            <h1>🧪 Playwright API Test Report</h1>\n" ++
  ("            <p class=\"timestamp\">Generated: \x7btimestamp\x7d</p>\n" ++
  ("            \n" ++
  ("            <div class=\"summary\">\n" ++
  ("                <div class=\"stat-card\">\n" ++
  ("                    <div class=\"stat-label\">Total Tests</div>\n" ++
  ("                    <div class=\"stat-number\">\x7btotal\x7d</div>\n" ++
  ("                </div>\n" ++
  ("                <div class=\"stat-card passed\">\n" ++
  ("                    <div class=\"stat-label\">Passed</div>\n" ++
  ("                    <div class=\"stat-number\">\x7bpassed\x7d</div>\n" ++
  ("                </div>\n" ++
  ("                <div class=\"stat-card failed\">\n" ++
  ("                    <div class=\"stat-label\">Failed</div>\n" ++
  ("                    <div class=\"stat-number\">\x7bfailed\x7d</div>\n" ++
  ("                </div>\n" ++
  ("                <div class=\"stat-card skipped\">\n" ++
  ("                    <div class=\"stat-label\">Skipped</div>\n" ++
  ("                    <div class=\"stat-number\">\x7bskipped\x7d</div>\n" ++
  ("                </div>\n" ++
  ("            </div>\n" ++
  ("            \n" ++
  ("            <div class=\"test-section\">\n" ++
  ("                <h2>Test Details</h2>\n" ++
  ("                \x7btest_details\x7d\n" ++
  ("            </div>\n" ++
  ("            \n" ++
  ("            <footer>\n" ++
  ("                <p>Playwright API Automation Framework</p>\n" ++
  ("                <p>Endpoint: /api/v1/intelligent-builder-intake/process</p>\n" ++
  ("            </footer>\n" ++
  ("        </div>\n" ++
  ("    </body>\n" ++
  ("    </html>\n" ++
  ("    "))))))))))))))))))))))))))))))))))))))))))))))))))))))))))))))))))))))))))))))))))))))))))))))))))))))))))))))))))))))))))))))))))))))))))))))))))))))))))))))))

/-- One element of the `test_results` list: a dict with these optional
string entries. -/
structure TestResult where
  name : Option String
  status : Option String
  request : Option String
  response : Option String
  error : Option String
deriving Repr, DecidableEq

/-- Parser state of the `str.format` scan: outside any replacement field,
just after a lone `{` or `}`, inside a field name (accumulated reversed),
or inside a format spec (field name fixed, brace nesting depth tracked). -/
inductive FmtState where
  | normal
  | sawOpen
  | sawClose
  | inName (acc : List Char)
  | inSpec (name : String) (depth : Nat)

/-- The scan of Python `str.format` over the template characters, building
the output in an accumulator: doubled braces are literals, a replacement
field is parsed (name, then an optional conversion or format spec up to the
matching close brace) and its name looked up among the keyword arguments —
a missing name is a `KeyError` raised at the point the field closes,
matching CPython's evaluation order — and a lone closing brace is an
error. A found value is substituted as is (spec-driven padding is not
modelled; every valid field of the template below has an empty spec). -/
def pyFormatSM (kw : List (String × String)) : List Char → FmtState → String → Except String String
  | [], .normal, out => .ok out
  | [], .sawOpen, _ => .error "Single lbrace encountered in format string"
  | [], .sawClose, _ => .error "Single rbrace encountered in format string"
  | [], .inName _, _ => .error "expected rbrace before end of string"
  | [], .inSpec _ _, _ => .error "expected rbrace before end of string"
  | c :: rest, .normal, out =>
    if c = '\x7b' then pyFormatSM kw rest .sawOpen out
    else if c = '\x7d' then pyFormatSM kw rest .sawClose out
    else pyFormatSM kw rest .normal (out.push c)
  | c :: rest, .sawOpen, out =>
    if c = '\x7b' then pyFormatSM kw rest .normal (out.push '\x7b')
    else if c = '\x7d' then
      match dGet kw "" with
      | none => .error ("KeyError: " ++ "")
      | some v => pyFormatSM kw rest .normal (out ++ v)
    else if c = ':' then pyFormatSM kw rest (.inSpec "" 0) out
    else if c = '!' then pyFormatSM kw rest (.inSpec "" 0) out
    else pyFormatSM kw rest (.inName [c]) out
  | c :: rest, .sawClose, out =>
    if c = '\x7d' then pyFormatSM kw rest .normal (out.push '\x7d')
    else .error "Single rbrace encountered in format string"
  | c :: rest, .inName acc, out =>
    if c = '\x7d' then
      match dGet kw (String.mk acc.reverse) with
      | none => .error ("KeyError: " ++ String.mk acc.reverse)
      | some v => pyFormatSM kw rest .normal (out ++ v)
    else if c = ':' then pyFormatSM kw rest (.inSpec (String.mk acc.reverse) 0) out
    else if c = '!' then pyFormatSM kw rest (.inSpec (String.mk acc.reverse) 0) out
    else if c = '\x7b' then .error "unexpected lbrace in field name"
    else pyFormatSM kw rest (.inName (c :: acc)) out
  | c :: rest, .inSpec name depth, out =>
    if c = '\x7b' then pyFormatSM kw rest (.inSpec name (depth + 1)) out
    else if c = '\x7d' then
      if depth = 0 then
        match dGet kw name with
        | none => .error ("KeyError: " ++ name)
        | some v => pyFormatSM kw rest .normal (out ++ v)
      else pyFormatSM kw rest (.inSpec name (depth - 1)) out
    else pyFormatSM kw rest (.inSpec name depth) out

/-- Python `template.format(**kw)`. -/
def pyFormat (template : String) (kw : List (String × String)) : Except String String :=
  pyFormatSM kw template.data .normal ""

/-- The f-string block built for one test result inside
`generate_html_report`'s loop. -/
def renderTestDetail (test : TestResult) : String :=
  let status_class := test.status.getD "unknown"
  let errorBlock :=
    match test.error with
    | some e => if e.isEmpty then "" else "<div class=\"test-details\">" ++ e ++ "</div>"
    | none => ""
  "\n        <div class=\"test-case " ++ status_class ++ "\">\n"
    ++ "            <div class=\"test-name\">" ++ test.name.getD "Unknown" ++ "</div>\n"
    ++ "            <span class=\"test-status " ++ status_class ++ "\">"
    ++ (test.status.getD "UNKNOWN").toUpper ++ "</span>\n"
    ++ "            <div class=\"request-response\">\n"
    ++ "                <strong>Request:</strong> " ++ test.request.getD "N/A" ++ "\n"
    ++ "            </div>\n"
    ++ "            <div class=\"request-response\">\n"
    ++ "                <strong>Response:</strong> " ++ test.response.getD "N/A" ++ "\n"
    ++ "            </div>\n"
    ++ "            " ++ errorBlock ++ "\n"
    ++ "        </div>\n        "

/-- The `test_details_html` accumulator of `generate_html_report`. -/
def testDetailsHtml : List TestResult → String
  | [] => ""
  | t :: rest => renderTestDetail t ++ testDetailsHtml rest

/-- The summary counts of `generate_html_report`:
(total, passed, failed, skipped). -/
def reportCounts (test_results : List TestResult) : Nat × Nat × Nat × Nat :=
  ( test_results.length,
    (test_results.filter (fun t => t.status == some "passed")).length,
    (test_results.filter (fun t => t.status == some "failed")).length,
    (test_results.filter (fun t => t.status == some "skipped")).length )

/-- A minimal filesystem: existing directories and a path-to-content map. -/
structure FileSystem where
  dirs : List String
  files : List (String × String)
deriving Repr, DecidableEq

/-- `Path("reports").mkdir(exist_ok=True)`. -/
def FileSystem.mkdirReports (fs : FileSystem) : FileSystem :=
  if "reports" ∈ fs.dirs then fs else { fs with dirs := "reports" :: fs.dirs }

/-- The directory component of a path (empty when the path has none). -/
def parentDir (p : String) : String :=
  String.mk ((p.data.reverse.dropWhile (fun c => c != '/')).reverse.dropLast)

/-- `Path(p).write_text(content)`: overwrite the file, failing with
`FileNotFoundError` when the parent directory does not exist. -/
def FileSystem.write_text (fs : FileSystem) (p content : String) :
    Except String FileSystem :=
  if parentDir p = "" ∨ parentDir p ∈ fs.dirs then
    .ok { fs with files := dUpdate fs.files p content }
  else
    .error ("FileNotFoundError: " ++ p)

/-- `generate_html_report(test_results, output_file)`: make the `reports`
directory, compute the counts and the detail blocks, instantiate the
template via `str.format`, and write the result to `output_file` (the
`datetime.now().strftime(...)` reading is the explicit `now` argument, the
filesystem is explicit state). -/
def generate_html_report (test_results : List TestResult) (output_file : String)
    (now : String) (fs : FileSystem) : Except String FileSystem :=
  let fs := fs.mkdirReports
  let counts := reportCounts test_results
  let test_details := testDetailsHtml test_results
  match pyFormat htmlTemplate
      [ ("timestamp", now),
        ("total", pyStrNat counts.1),
        ("passed", pyStrNat counts.2.1),
        ("failed", pyStrNat counts.2.2.1),
        ("skipped", pyStrNat counts.2.2.2),
        ("test_details", test_details) ] with
  | .error e => .error e
  | .ok html => fs.write_text output_file html


/-! ### Shared lemmas about the dictionary model -/

/-- Replacing the matching entries of a list that has one puts `(k, v)` at
the first match. -/
theorem find?_map_replace (k v : String) :
    ∀ hs : List (String × String), hs.any (fun p => p.1 == k) = true →
      (hs.map (fun p => if p.1 == k then (k, v) else p)).find? (fun p => p.1 == k) =
        some (k, v) := by
  intro hs
  induction hs with
  | nil => intro h; simp at h
  | cons p t ih =>
    intro h
    by_cases hp : p.1 = k
    · simp [List.find?, hp]
    · have hpb : (p.1 == k) = false := by simp [hp]
      have ht : t.any (fun p => p.1 == k) = true := by
        simpa [List.any_cons, hpb] using h
      simp only [List.map_cons, hpb, if_false]
      simpa [List.find?, hpb] using ih ht

/-- Appending `(k, v)` to a list with no entry at `k` makes it the first
match. -/
theorem find?_append_single (k v : String) :
    ∀ hs : List (String × String), hs.any (fun p => p.1 == k) = false →
      (hs ++ [(k, v)]).find? (fun p => p.1 == k) = some (k, v) := by
  intro hs
  induction hs with
  | nil => intro _; simp [List.find?]
  | cons p t ih =>
    intro h
    have hp : (p.1 == k) = false := by
      cases hc : p.1 == k
      · rfl
      · rw [List.any_cons, hc] at h; simp at h
    have ht : t.any (fun p => p.1 == k) = false := by
      rw [List.any_cons, hp] at h; simpa using h
    simp only [List.cons_append]
    simpa [List.find?, hp] using ih ht

/-- After an update, looking the key up yields the new value. -/
theorem dGet_dUpdate (hs : List (String × String)) (k v : String) :
    dGet (dUpdate hs k v) k = some v := by
  unfold dGet dUpdate
  cases hany : hs.any (fun p => p.1 == k)
  · simp only [if_false, Bool.false_eq_true]
    rw [find?_append_single k v hs hany]
    rfl
  · simp only [if_true]
    rw [find?_map_replace k v hs hany]
    rfl

/-- After a pop, the key is gone. -/
theorem dGet_dPop (hs : List (String × String)) (k : String) :
    dGet (dPop hs k) k = none := by
  unfold dGet dPop
  rw [List.find?_eq_none.mpr]
  · rfl
  · intro x hx
    simp only [List.mem_filter, bne_iff_ne, ne_eq] at hx
    simp [hx.2]

/-! ### Claim theorems -/

/-- C10: for every method and path, the URL `request` targets is the path
itself, verbatim and ignoring the configured base URL, whenever the path
begins with `"http"`; otherwise it is the base URL (trailing slashes
stripped at construction) concatenated with the path. -/
theorem C10_request_target_url (base path : String) (timeout : Nat) :
    (pyStartswith path "http" = true →
        urlFor (APIClient.init base timeout) path = path
      ∧ ∀ base2, urlFor (APIClient.init base2 timeout) path = path)
  ∧ (pyStartswith path "http" = false →
        urlFor (APIClient.init base timeout) path = rstripSlashes base ++ path)
  ∧ (APIClient.init base timeout).base_url = rstripSlashes base
  ∧ rstripSlashes (base ++ "/") = rstripSlashes base := by
  refine ⟨fun h => ⟨?_, fun base2 => ?_⟩, fun h => ?_, rfl, ?_⟩
  · simp [urlFor, h]
  · simp [urlFor, h]
  · simp [urlFor, APIClient.init, h]
  · unfold rstripSlashes
    rw [String.data_append]
    simp [List.dropWhile]

/-- Witness for C10 at concrete inputs. -/
theorem C10_request_target_url_witness :
    urlFor (APIClient.init "https://restful-booker.herokuapp.com/" 10) "http://x.example" =
      "http://x.example"
    ∧ urlFor (APIClient.init "https://restful-booker.herokuapp.com/" 10) "/auth" =
      "https://restful-booker.herokuapp.com/auth" := by
  constructor
  · exact ((C10_request_target_url "https://restful-booker.herokuapp.com/" "http://x.example" 10).1 (by decide)).1
  · have h := (C10_request_target_url "https://restful-booker.herokuapp.com/" "/auth" 10).2.1 (by decide)
    rw [h]
    rfl

/-- C5: `request` issues the HTTP request with the client's fixed timeout
at the computed URL (its result depends only on the transport's value
there), translates timeout and connection failures into the `RequestError`
kind of `APIClientError`, and returns any delivered response raw with no
status-code interpretation. -/
theorem C5_request_translation (c : APIClient) (transport : Transport)
    (method path : String) :
    (∀ transport2 : Transport,
        transport method (urlFor c path) c.timeout =
          transport2 method (urlFor c path) c.timeout →
        c.request transport method path = c.request transport2 method path)
  ∧ (∀ resp, transport method (urlFor c path) c.timeout = .success resp →
        c.request transport method path = .ok resp)
  ∧ (transport method (urlFor c path) c.timeout = .timedOut →
        c.request transport method path = .error .timeout
      ∧ APIClientError.timeout.isRequestError = true)
  ∧ (transport method (urlFor c path) c.timeout = .connectionError →
        c.request transport method path = .error .requestFailed
      ∧ APIClientError.requestFailed.isRequestError = true) := by
  refine ⟨fun transport2 h => ?_, fun resp h => ?_, fun h => ⟨?_, rfl⟩, fun h => ⟨?_, rfl⟩⟩ <;>
    simp [APIClient.request, h]

/-- Witness for C5 at a concrete client and transports. -/
theorem C5_request_translation_witness :
    (APIClient.init "https://b.example" 10).request (fun _ _ _ => .timedOut) "GET" "/x" =
      .error .timeout
    ∧ (APIClient.init "https://b.example" 10).request (fun _ _ _ => .connectionError) "GET" "/x" =
      .error .requestFailed
    ∧ (APIClient.init "https://b.example" 10).request
        (fun _ _ _ => .success { status := 500, text := "oops", json := .null }) "GET" "/x" =
      .ok { status := 500, text := "oops", json := .null } := by
  refine ⟨?_, ?_, ?_⟩
  · exact ((C5_request_translation (APIClient.init "https://b.example" 10)
      (fun _ _ _ => .timedOut) "GET" "/x").2.2.1 rfl).1
  · exact ((C5_request_translation (APIClient.init "https://b.example" 10)
      (fun _ _ _ => .connectionError) "GET" "/x").2.2.2 rfl).1
  · exact (C5_request_translation (APIClient.init "https://b.example" 10)
      (fun _ _ _ => .success { status := 500, text := "oops", json := .null }) "GET" "/x").2.1
      { status := 500, text := "oops", json := .null } rfl

/-- C4: `request_raise_on_unauthorized` behaves identically to `request`
except that it raises `APIClientError("unauthorized")` exactly when the
response status is 401; any other delivered response is returned
unchanged. -/
theorem C4_raise_on_unauthorized (c : APIClient) (transport : Transport)
    (method path : String) :
    (∀ e, c.request transport method path = .error e →
        c.request_raise_on_unauthorized transport method path = .error e)
  ∧ (∀ resp, c.request transport method path = .ok resp →
        (resp.status = 401 →
          c.request_raise_on_unauthorized transport method path = .error .unauthorized)
      ∧ (resp.status ≠ 401 →
          c.request_raise_on_unauthorized transport method path = .ok resp)) := by
  refine ⟨fun e h => ?_, fun resp h => ⟨fun h401 => ?_, fun h401 => ?_⟩⟩
  · simp [APIClient.request_raise_on_unauthorized, h]
  · simp [APIClient.request_raise_on_unauthorized, h, h401]
  · simp [APIClient.request_raise_on_unauthorized, h, h401]

/-- Witness for C4 at a concrete 401 and a concrete 200 response. -/
theorem C4_raise_on_unauthorized_witness :
    (APIClient.init "https://b.example" 10).request_raise_on_unauthorized
      (fun _ _ _ => .success { status := 401, text := "", json := .null }) "GET" "/x" =
      .error .unauthorized
    ∧ (APIClient.init "https://b.example" 10).request_raise_on_unauthorized
      (fun _ _ _ => .success { status := 200, text := "ok", json := .null }) "GET" "/x" =
      .ok { status := 200, text := "ok", json := .null } := by
  constructor
  · exact ((C4_raise_on_unauthorized (APIClient.init "https://b.example" 10)
      (fun _ _ _ => .success { status := 401, text := "", json := .null }) "GET" "/x").2
      { status := 401, text := "", json := .null } rfl).1 rfl
  · exact ((C4_raise_on_unauthorized (APIClient.init "https://b.example" 10)
      (fun _ _ _ => .success { status := 200, text := "ok", json := .null }) "GET" "/x").2
      { status := 200, text := "ok", json := .null } rfl).2 (by decide)

/-- C6: for every `file_id` matching no catalog entry, the lookup returns
`None` rather than raising, and `build_query_params` raises the
`ValueError`. -/
theorem C6_lookup_miss (file_id : String)
    (h : ∀ tc ∈ TEST_CASES, tc.file_id ≠ file_id) :
    get_test_case file_id = none
    ∧ build_query_params file_id =
        .error (.valueError ("Test case not found for file_id: " ++ file_id)) := by
  have hnone : get_test_case file_id = none := by
    unfold get_test_case
    rw [List.find?_eq_none]
    intro tc htc
    simp [h tc htc]
  exact ⟨hnone, by simp [build_query_params, hnone]⟩

/-- Witness for C6 at `"nonexistent"`. -/
theorem C6_lookup_miss_witness :
    get_test_case "nonexistent" = none
    ∧ build_query_params "nonexistent" =
        .error (.valueError "Test case not found for file_id: nonexistent") := by
  have h := C6_lookup_miss "nonexistent" (by decide)
  exact ⟨h.1, by rw [h.2]; rfl⟩

/-- Python `or` keeps the right operand when the left is falsy. -/
theorem pyOr_of_falsy (a b : JValue) (h : jFalsy a = true) : pyOr a b = b := by
  simp [pyOr, h]

/-- Python `or` keeps the left operand when it is truthy. -/
theorem pyOr_of_truthy (a b : JValue) (h : jFalsy a = false) : pyOr a b = a := by
  simp [pyOr, h]

/-- A string is empty exactly when its character list is. -/
theorem data_isEmpty_iff (s : String) : s.data.isEmpty = true ↔ s = "" := by
  rw [List.isEmpty_iff]
  constructor
  · intro h; exact String.ext h
  · intro h; rw [h]

/-- C2: after `set_token`, the Authorization header is present iff a
(non-null, non-empty) token is set: `set_token(None)` leaves no header, and
for a non-empty token the header is exactly `Bearer <token>`. -/
theorem C2_set_token_header (c : APIClient) (token : Option String) :
    ((dGet (c.set_token token).headers "Authorization").isSome = true
      ↔ token ≠ none ∧ token ≠ some "")
  ∧ (c.set_token token).token = token.map JValue.str
  ∧ (token = none → dGet (c.set_token token).headers "Authorization" = none)
  ∧ (∀ s, token = some s → s ≠ "" →
      dGet (c.set_token token).headers "Authorization" = some ("Bearer " ++ s)) := by
  refine ⟨?_, rfl, fun h => ?_, fun s hs hne => ?_⟩
  · cases token with
    | none =>
      simp [APIClient.set_token, dGet_dPop]
    | some s =>
      by_cases hs : s = ""
      · subst hs
        simp [APIClient.set_token, dGet_dPop]
      · have hne : s.data.isEmpty = false := by
          cases h : s.data.isEmpty
          · rfl
          · exact absurd ((data_isEmpty_iff s).mp h) hs
        simp [APIClient.set_token, hne, dGet_dUpdate, hs]
  · subst h
    simp [APIClient.set_token, dGet_dPop]
  · subst hs
    have hne2 : s.data.isEmpty = false := by
      cases h : s.data.isEmpty
      · rfl
      · exact absurd ((data_isEmpty_iff s).mp h) hne
    simp [APIClient.set_token, hne2, dGet_dUpdate]

/-- Witness for C2 at a concrete client, with a token and with `None`. -/
theorem C2_set_token_header_witness :
    dGet ((APIClient.init "https://b.example" 10).set_token (some "tok")).headers
      "Authorization" = some ("Bearer " ++ "tok")
    ∧ dGet ((APIClient.init "https://b.example" 10).set_token none).headers
      "Authorization" = none := by
  constructor
  · exact (C2_set_token_header (APIClient.init "https://b.example" 10)
      (some "tok")).2.2.2 "tok" rfl (by decide)
  · exact (C2_set_token_header (APIClient.init "https://b.example" 10)
      none).2.2.1 rfl

/-- C3 as stated is false on two fronts: a 201 login response — a success
status — still raises `AuthenticationError` (the code tests `!= 200`), and
a 200 response whose JSON body is not an object raises an uncaught
`AttributeError` from `data.get` instead of extracting a token via the
whole-body fallback and returning the body. -/
theorem C3_counterexample :
    ((APIClient.init "https://b.example" 10).authenticate
        { status := 201, text := "created", json := .null } =
      .error (.apiError (.authenticationFailed 201 "created")))
    ∧ ((APIClient.init "https://b.example" 10).authenticate
        { status := 200, text := "\"tok\"", json := JValue.str "tok" } =
      .error (.attributeError "\x27str\x27 object has no attribute \x27get\x27")) :=
  ⟨rfl, rfl⟩

/-- C3 (amended): `authenticate` raises an `AuthenticationError` carrying
the response status and body whenever the login status is not 200
(including other 2xx statuses); on a 200 response whose body is a JSON
object it stores the token obtained by trying a direct field, then a
nested field, then the whole body, sets the `Authorization` header from
it, and returns the raw body; on a 200 response whose body is not a JSON
object it raises the uncaught `AttributeError` from `data.get`, changing
no state. -/
theorem C3_authenticate (c : APIClient) (resp : HttpResponse) :
    (resp.status ≠ 200 →
        c.authenticate resp =
          .error (.apiError (.authenticationFailed resp.status resp.text)))
  ∧ (resp.status = 200 → ∀ fields, resp.json = .obj fields →
        ∃ tok, extractToken resp.json = .ok tok
          ∧ c.authenticate resp =
              .ok ({ c with
                      token := some tok
                      headers := dUpdate c.headers "Authorization"
                        ("Bearer " ++ pyStr tok) }, resp.json)
          ∧ dGet (dUpdate c.headers "Authorization" ("Bearer " ++ pyStr tok))
              "Authorization" = some ("Bearer " ++ pyStr tok))
  ∧ (resp.status = 200 → (∀ fields, resp.json ≠ .obj fields) →
        c.authenticate resp =
          .error (.attributeError
            ("\x27" ++ pyTypeName resp.json ++ "\x27 object has no attribute \x27get\x27")))
  ∧ (∀ fields : List (String × JValue), ∀ s, jFalsy (JValue.str s) = false →
        jGet fields "token" = .str s →
        extractToken (.obj fields) = .ok (.str s))
  ∧ (∀ fields nested : List (String × JValue), ∀ s,
        jFalsy (jGet fields "token") = true →
        jFalsy (jGet fields "access_token") = true →
        jGet fields "data" = .obj nested →
        jFalsy (jGet nested "token") = false →
        jGet nested "token" = .str s →
        extractToken (.obj fields) = .ok (.str s))
  ∧ (∀ fields : List (String × JValue),
        jFalsy (jGet fields "token") = true →
        jFalsy (jGet fields "access_token") = true →
        jFalsy (jGet fields "data") = true →
        extractToken (.obj fields) = .ok (.obj fields)) := by
  refine ⟨fun h => ?_, fun h fields hf => ?_, fun h hne => ?_, ?_, ?_, ?_⟩
  · have hb : (resp.status != 200) = true := by simpa using h
    simp [APIClient.authenticate, hb]
  · have hb : (resp.status != 200) = false := by simpa using h
    rw [hf]
    refine ⟨_, rfl, ?_, dGet_dUpdate _ _ _⟩
    simp [APIClient.authenticate, hb, hf, extractToken]
  · have hb : (resp.status != 200) = false := by simpa using h
    cases hj : resp.json
    case obj fields => exact absurd hj (hne fields)
    all_goals simp [APIClient.authenticate, hb, hj, extractToken, pyTypeName]
  · intro fields s hne htok
    simp only [extractToken]
    rw [htok]
    simp [pyOr, hne]
  · intro fields nested s h1 h2 h3 h4 h5
    rw [h5] at h4
    simp only [extractToken]
    rw [pyOr_of_falsy _ _ h1, pyOr_of_falsy _ _ h2, h3]
    simp only [h5, pyOr_of_truthy _ _ h4]
    rw [h5] at *
    simp [h4]
  · intro fields h1 h2 h3
    simp only [extractToken]
    rw [pyOr_of_falsy _ _ h1, pyOr_of_falsy _ _ h2]
    cases hd : jGet fields "data"
    case obj nested =>
      have hn : nested = [] := by
        rw [hd] at h3
        simpa [jFalsy, List.isEmpty_iff] using h3
      subst hn
      rfl
    all_goals rw [hd] at h3
    all_goals simp [h3]

/-- Witness for C3 (amended): a 403 response, a 200 response carrying a
direct `token` field, and a 200 response with a non-object body. -/
theorem C3_authenticate_witness :
    ((APIClient.init "https://b.example" 10).authenticate
        { status := 403, text := "denied", json := .null } =
      .error (.apiError (.authenticationFailed 403 "denied")))
    ∧ (∃ tok, extractToken (.obj [("token", JValue.str "abc")]) = .ok tok
        ∧ (APIClient.init "https://b.example" 10).authenticate
            { status := 200, text := "", json := .obj [("token", JValue.str "abc")] } =
          .ok ({ APIClient.init "https://b.example" 10 with
                  token := some tok
                  headers := dUpdate (APIClient.init "https://b.example" 10).headers
                    "Authorization" ("Bearer " ++ pyStr tok) },
                .obj [("token", JValue.str "abc")])
        ∧ dGet (dUpdate (APIClient.init "https://b.example" 10).headers
              "Authorization" ("Bearer " ++ pyStr tok)) "Authorization" =
            some ("Bearer " ++ pyStr tok))
    ∧ ((APIClient.init "https://b.example" 10).authenticate
        { status := 200, text := "null", json := .null } =
      .error (.attributeError "\x27NoneType\x27 object has no attribute \x27get\x27"))
    ∧ extractToken (.obj [("token", JValue.str "abc")]) = .ok (JValue.str "abc") := by
  refine ⟨?_, ?_, ?_, ?_⟩
  · exact (C3_authenticate (APIClient.init "https://b.example" 10)
      { status := 403, text := "denied", json := .null }).1 (by decide)
  · exact (C3_authenticate (APIClient.init "https://b.example" 10)
      { status := 200, text := "", json := .obj [("token", JValue.str "abc")] }).2.1 rfl
      [("token", JValue.str "abc")] rfl
  · exact (C3_authenticate (APIClient.init "https://b.example" 10)
      { status := 200, text := "null", json := .null }).2.2.1 rfl
      (fun fields h => JValue.noConfusion h)
  · exact (C3_authenticate (APIClient.init "https://b.example" 10)
      { status := 200, text := "", json := .obj [("token", JValue.str "abc")] }).2.2.2.1
      [("token", JValue.str "abc")] "abc" (by decide) rfl

/-- C1 as stated is false: the second catalog entry (the zoning map) has
`file_id = "abcd1234"` like every other entry, and `build_query_params` on
that id returns the first entry's values, whose `file_type` is
`"community"`, not the second entry's `"zoning"`. -/
theorem C1_counterexample :
    (TEST_CASES.get? 1).map (fun tc => tc.file_type) = some "zoning"
    ∧ (TEST_CASES.get? 1).map (fun tc => tc.file_id) = some "abcd1234"
    ∧ (build_query_params "abcd1234").toOption.bind (fun params => dGet params "file_type") =
        some "community"
    ∧ ("community" : String) ≠ "zoning" := by
  refine ⟨rfl, rfl, rfl, by decide⟩

/-- C1 (amended): for every catalog entry, `build_query_params` on its
`file_id` returns a mapping with exactly the five keys, whose values equal
the fields of the first catalog entry with that `file_id`. -/
theorem C1_build_query_params_first_match (tc : TestCase) (h : tc ∈ TEST_CASES) :
    ∃ first, get_test_case tc.file_id = some first
      ∧ first ∈ TEST_CASES
      ∧ first.file_id = tc.file_id
      ∧ build_query_params tc.file_id =
          .ok [ ("file_url", first.file_url),
                ("file_type", first.file_type),
                ("file_id", first.file_id),
                ("builder_id", first.builder_id),
                ("entity_id", first.entity_id) ] := by
  simp only [TEST_CASES, List.mem_cons, List.not_mem_nil, or_false] at h
  rcases h with h | h | h | h | h <;> subst h <;>
    exact ⟨_, rfl, by decide, rfl, rfl⟩

/-- Witness for C1 (amended) at the zoning entry. -/
theorem C1_build_query_params_first_match_witness :
    ({ file_url := "https://example.com/zoning-map.pdf"
       file_type := "zoning"
       file_id := "abcd1234"
       builder_id := "example"
       entity_id := "abcd1234"
       description := "Zoning map PDF for Builder Beta" } : TestCase) ∈ TEST_CASES
    ∧ ∃ first, get_test_case "abcd1234" = some first
        ∧ first ∈ TEST_CASES
        ∧ first.file_id = "abcd1234"
        ∧ build_query_params "abcd1234" =
            .ok [ ("file_url", first.file_url),
                  ("file_type", first.file_type),
                  ("file_id", first.file_id),
                  ("builder_id", first.builder_id),
                  ("entity_id", first.entity_id) ] := by
  refine ⟨by decide, ?_⟩
  exact C1_build_query_params_first_match
    { file_url := "https://example.com/zoning-map.pdf"
      file_type := "zoning"
      file_id := "abcd1234"
      builder_id := "example"
      entity_id := "abcd1234"
      description := "Zoning map PDF for Builder Beta" } (by decide)

/-- Newline counting distributes over string append. -/
theorem numLines_append (s t : String) : numLines (s ++ t) = numLines s + numLines t := by
  rcases s with ⟨l⟩
  rcases t with ⟨m⟩
  simp [numLines, String.data_append, List.count_append]

/-- A decimal digit character is not a newline. -/
theorem digitChar_ne_newline (d : Nat) (h : d < 10) :
    (Char.ofNat (48 + d) == Char.ofNat 10) = false := by
  interval_cases d <;> decide

/-- `pyStrNatGo` only prepends digit characters, so the newline count is
that of the accumulator. -/
theorem count_newline_pyStrNatGo (fuel : Nat) :
    ∀ n acc, (pyStrNatGo fuel n acc).count '\n' = acc.count '\n' := by
  induction fuel with
  | zero => intro n acc; rfl
  | succ fuel ih =>
    intro n acc
    rw [pyStrNatGo]
    split
    next h =>
      rw [List.count_cons]
      simp [digitChar_ne_newline n h]
    next h =>
      rw [ih (n / 10) _, List.count_cons]
      simp [digitChar_ne_newline (n % 10) (Nat.mod_lt _ (by omega))]

/-- A rendered number contains no newline. -/
theorem numLines_pyStrNat (n : Nat) : numLines (pyStrNat n) = 0 := by
  simp [numLines, pyStrNat]
  rw [count_newline_pyStrNatGo]
  rfl

/-- One report line per entry when no logged field embeds a newline. -/
theorem numLines_logLines (logs : List LogEntry)
    (h : ∀ e ∈ logs, numLines e.timestamp = 0 ∧ numLines e.level = 0 ∧
      numLines e.message = 0) :
    numLines (logLines logs) = logs.length := by
  induction logs with
  | nil => rfl
  | cons e rest ih =>
    have he := h e (List.mem_cons_self _ _)
    have hr := ih (fun x hx => h x (List.mem_cons_of_mem _ hx))
    have c1 : numLines "[" = 0 := rfl
    have c2 : numLines "] [" = 0 := rfl
    have c3 : numLines "] " = 0 := rfl
    have c4 : numLines "\n" = 1 := rfl
    simp only [logLines, numLines_append, he.1, he.2.1, he.2.2, hr, c1, c2, c3, c4,
      List.length_cons]
    omega

/-- C7 as stated is false: a single logged entry whose message embeds a
newline (as the logger's own `log_request` helper produces via multi-line
`json.dumps` output) yields 8 report lines, not `1 + 6`. -/
theorem C7_counterexample :
    numLines (TestLogger.get_report
      { start_time := "s",
        logs := [{ timestamp := "t", level := "INFO", message := "a\nb" }] } "e") = 8
    ∧ (8 : Nat) ≠ 1 + 6 := by
  exact ⟨rfl, by decide⟩

/-- C7 (amended): when no logged field and neither boundary timestamp
embeds a newline, `get_report` has a line count of the number of logged
entries plus the 6 fixed header lines (header, start time, end time,
total-count line, blank separator, `Logs:` label). -/
theorem C7_report_line_count (lg : TestLogger) (end_time : String)
    (hstart : numLines lg.start_time = 0)
    (hend : numLines end_time = 0)
    (hlogs : ∀ e ∈ lg.logs, numLines e.timestamp = 0 ∧ numLines e.level = 0 ∧
      numLines e.message = 0) :
    numLines (lg.get_report end_time) = lg.logs.length + 6 := by
  have c1 : numLines "Test Execution Report\n" = 1 := rfl
  have c2 : numLines "Start Time: " = 0 := rfl
  have c3 : numLines "End Time: " = 0 := rfl
  have c4 : numLines "Total Logs: " = 0 := rfl
  have c5 : numLines "\n" = 1 := rfl
  have c6 : numLines "\n\n" = 2 := rfl
  have c7 : numLines "Logs:\n" = 1 := rfl
  simp only [TestLogger.get_report, numLines_append, c1, c2, c3, c4, c5, c6, c7,
    hstart, hend, numLines_pyStrNat, numLines_logLines lg.logs hlogs]
  omega

/-- Witness for C7 (amended) at a concrete two-entry logger. -/
theorem C7_report_line_count_witness :
    numLines (TestLogger.get_report
      { start_time := "2026-01-01 00:00:00",
        logs := [ { timestamp := "t1", level := "INFO", message := "REQUEST: POST /x" },
                  { timestamp := "t2", level := "INFO", message := "RESPONSE: Status 200" } ] }
      "2026-01-01 00:00:05") = 2 + 6 := by
  exact C7_report_line_count
    { start_time := "2026-01-01 00:00:00",
      logs := [ { timestamp := "t1", level := "INFO", message := "REQUEST: POST /x" },
                { timestamp := "t2", level := "INFO", message := "RESPONSE: Status 200" } ] }
    "2026-01-01 00:00:05" rfl rfl (by decide)

/-- Pushing a character then appending equals appending the consed list. -/
theorem push_append_mk (s : String) (c : Char) (t : List Char) :
    s.push c ++ String.mk t = s ++ String.mk (c :: t) := by
  rcases s with ⟨l⟩
  show String.mk ((l ++ [c]) ++ t) = String.mk (l ++ (c :: t))
  rw [List.append_assoc]
  rfl

/-- The `str.format` scan copies a brace-free chunk into the output. -/
theorem pyFormatSM_plain_chunk (kw : List (String × String)) (l : List Char) :
    ∀ (rest : List Char) (out : String),
      (∀ c ∈ l, c ≠ '\x7b' ∧ c ≠ '\x7d') →
      pyFormatSM kw (l ++ rest) .normal out =
        pyFormatSM kw rest .normal (out ++ String.mk l) := by
  induction l with
  | nil =>
    intro rest out _
    have hmk : String.mk [] = "" := rfl
    simp [hmk]
  | cons c t ih =>
    intro rest out hplain
    have hc1 := (hplain c (List.mem_cons_self c t)).1
    have hc2 := (hplain c (List.mem_cons_self c t)).2
    rw [List.cons_append]
    simp only [pyFormatSM]
    rw [if_neg hc1, if_neg hc2]
    rw [ih rest (out.push c) (fun x hx => hplain x (List.mem_cons_of_mem c hx))]
    rw [push_append_mk]

/-- The `str.format` scan accumulates a chunk free of terminator characters
while inside a field name. -/
theorem pyFormatSM_name_chunk (kw : List (String × String)) (l : List Char) :
    ∀ (rest acc : List Char) (out : String),
      (∀ c ∈ l, c ≠ '\x7d' ∧ c ≠ ':' ∧ c ≠ '!' ∧ c ≠ '\x7b') →
      pyFormatSM kw (l ++ rest) (.inName acc) out =
        pyFormatSM kw rest (.inName (l.reverse ++ acc)) out := by
  induction l with
  | nil => intro rest acc out _; simp
  | cons c t ih =>
    intro rest acc out h
    have hc := h c (List.mem_cons_self c t)
    rw [List.cons_append]
    simp only [pyFormatSM]
    rw [if_neg hc.1, if_neg hc.2.1, if_neg hc.2.2.1, if_neg hc.2.2.2]
    rw [ih rest (c :: acc) out (fun x hx => h x (List.mem_cons_of_mem c hx))]
    simp [List.reverse_cons, List.append_assoc]

/-- The `str.format` scan passes over a brace-free chunk of a format spec
unchanged. -/
theorem pyFormatSM_spec_chunk (kw : List (String × String)) (l : List Char) :
    ∀ (rest : List Char) (name : String) (depth : Nat) (out : String),
      (∀ c ∈ l, c ≠ '\x7b' ∧ c ≠ '\x7d') →
      pyFormatSM kw (l ++ rest) (.inSpec name depth) out =
        pyFormatSM kw rest (.inSpec name depth) out := by
  induction l with
  | nil => intro rest name depth out _; simp
  | cons c t ih =>
    intro rest name depth out h
    have hc := h c (List.mem_cons_self c t)
    rw [List.cons_append]
    simp only [pyFormatSM]
    rw [if_neg hc.1, if_neg hc.2]
    exact ih rest name depth out (fun x hx => h x (List.mem_cons_of_mem c hx))

/-- An opening brace in normal state starts a replacement field. -/
theorem pyFormatSM_step_open (kw : List (String × String)) (rest : List Char) (out : String) :
    pyFormatSM kw ('\x7b' :: rest) .normal out = pyFormatSM kw rest .sawOpen out := by
  simp [pyFormatSM]

/-- An ordinary character after a lone opening brace starts the field
name. -/
theorem pyFormatSM_step_openOther (kw : List (String × String)) (c : Char)
    (rest : List Char) (out : String)
    (h1 : c ≠ '\x7b') (h2 : c ≠ '\x7d') (h3 : c ≠ ':') (h4 : c ≠ '!') :
    pyFormatSM kw (c :: rest) .sawOpen out = pyFormatSM kw rest (.inName [c]) out := by
  simp only [pyFormatSM]
  rw [if_neg h1, if_neg h2, if_neg h3, if_neg h4]

/-- A colon ends the field name and starts the format spec. -/
theorem pyFormatSM_name_colon (kw : List (String × String)) (rest acc : List Char)
    (out : String) :
    pyFormatSM kw (':' :: rest) (.inName acc) out =
      pyFormatSM kw rest (.inSpec (String.mk acc.reverse) 0) out := by
  simp [pyFormatSM]

/-- A closing brace at spec depth zero resolves the field name among the
keyword arguments. -/
theorem pyFormatSM_spec_close0 (kw : List (String × String)) (rest : List Char)
    (name out : String) :
    pyFormatSM kw ('\x7d' :: rest) (.inSpec name 0) out =
      (match dGet kw name with
        | none => .error ("KeyError: " ++ name)
        | some v => pyFormatSM kw rest .normal (out ++ v)) := by
  simp [pyFormatSM]

/-- A lookup skips an entry whose key differs. -/
theorem dGet_cons_ne (k1 v1 : String) (hs : List (String × String)) (k : String)
    (h : (k1 == k) = false) : dGet ((k1, v1) :: hs) k = dGet hs k := by
  simp [dGet, List.find?, h]

/-- A lookup in the empty dictionary misses. -/
theorem dGet_nil (k : String) : dGet [] k = none := rfl

set_option maxRecDepth 8000 in
/-- The `str.format` call inside `generate_html_report` always raises: the
first CSS rule of the unescaped template (`body \x7b ... \x7d`) parses as a
replacement field named `"\n                font-family"`, which is not
among the keyword arguments, so CPython raises exactly this `KeyError`
before any output is produced. -/
theorem pyFormat_htmlTemplate_fails (ts total passed failed skipped details : String) :
    pyFormat htmlTemplate
      [ ("timestamp", ts), ("total", total), ("passed", passed),
        ("failed", failed), ("skipped", skipped), ("test_details", details) ] =
      .error ("KeyError: " ++ "\n                font-family") := by
  have h9 : ("            body \x7b\n" : String).data = ("            body " : String).data ++ '\x7b' :: '\n' :: [] := rfl
  have h10 : ("                font-family: \x27Segoe UI\x27, Tahoma, Geneva, Verdana, sans-serif;\n" : String).data = ("                font-family" : String).data ++ ':' :: (" \x27Segoe UI\x27, Tahoma, Geneva, Verdana, sans-serif;\n" : String).data := rfl
  have h13 : ("            \x7d\n" : String).data = ("            " : String).data ++ '\x7d' :: '\n' :: [] := rfl
  have hrev : (List.reverse ("                font-family" : String).data ++ ['\n']).reverse = '\n' :: ("                font-family" : String).data := rfl
  have hname : String.mk ('\n' :: ("                font-family" : String).data) = "\n                font-family" := rfl
  show pyFormatSM _ htmlTemplate.data .normal "" = _
  rw [htmlTemplate]
  repeat rw [String.data_append]
  rw [pyFormatSM_plain_chunk _ _ _ _ (by decide)]
  rw [pyFormatSM_plain_chunk _ _ _ _ (by decide)]
  rw [pyFormatSM_plain_chunk _ _ _ _ (by decide)]
  rw [pyFormatSM_plain_chunk _ _ _ _ (by decide)]
  rw [pyFormatSM_plain_chunk _ _ _ _ (by decide)]
  rw [pyFormatSM_plain_chunk _ _ _ _ (by decide)]
  rw [pyFormatSM_plain_chunk _ _ _ _ (by decide)]
  rw [pyFormatSM_plain_chunk _ _ _ _ (by decide)]
  rw [h9, List.append_assoc]
  rw [pyFormatSM_plain_chunk _ _ _ _ (by decide)]
  rw [List.cons_append, List.cons_append, List.nil_append]
  rw [pyFormatSM_step_open]
  rw [pyFormatSM_step_openOther _ _ _ _ (by decide) (by decide) (by decide) (by decide)]
  rw [h10, List.append_assoc]
  rw [pyFormatSM_name_chunk _ _ _ _ _ (by decide)]
  rw [List.cons_append]
  rw [pyFormatSM_name_colon]
  rw [hrev, hname]
  rw [pyFormatSM_spec_chunk _ _ _ _ _ _ (by decide)]
  rw [pyFormatSM_spec_chunk _ _ _ _ _ _ (by decide)]
  rw [pyFormatSM_spec_chunk _ _ _ _ _ _ (by decide)]
  rw [h13, List.append_assoc]
  rw [pyFormatSM_spec_chunk _ _ _ _ _ _ (by decide)]
  rw [List.cons_append, List.cons_append, List.nil_append]
  rw [pyFormatSM_spec_close0]
  rw [dGet_cons_ne _ _ _ _ (by decide)]
  rw [dGet_cons_ne _ _ _ _ (by decide)]
  rw [dGet_cons_ne _ _ _ _ (by decide)]
  rw [dGet_cons_ne _ _ _ _ (by decide)]
  rw [dGet_cons_ne _ _ _ _ (by decide)]
  rw [dGet_cons_ne _ _ _ _ (by decide)]
  rw [dGet_nil]


set_option maxRecDepth 8000 in
/-- `generate_html_report` therefore raises on every input, writing no
file. -/
theorem generate_html_report_always_fails (test_results : List TestResult)
    (output_file now : String) (fs : FileSystem) :
    generate_html_report test_results output_file now fs =
      .error ("KeyError: " ++ "\n                font-family") := by
  simp only [generate_html_report]
  rw [pyFormat_htmlTemplate_fails]

/-- C8: the claim that `generate_html_report` renders the document and
writes it to the output path is contradicted by the code: the template's
CSS braces are not escaped for `str.format`, so the call raises a
`KeyError` on every outcome list, every output path and every starting
filesystem, and no file is ever written (nor is any parent directory of a
non-default output path created — the code only ever makes the fixed
`reports` directory). -/
theorem C8_generate_html_report_never_writes (test_results : List TestResult)
    (output_file now : String) (fs : FileSystem) :
    generate_html_report test_results output_file now fs =
      .error ("KeyError: " ++ "\n                font-family") :=
  generate_html_report_always_fails test_results output_file now fs

/-- C9: on the empty outcome list the counts are computed as
total = passed = failed = skipped = 0, but no well-formed HTML document is
produced: the templating step raises the same `KeyError` as for every
other input. -/
theorem C9_empty_outcomes (output_file now : String) (fs : FileSystem) :
    reportCounts [] = (0, 0, 0, 0)
    ∧ generate_html_report [] output_file now fs =
        .error ("KeyError: " ++ "\n                font-family") :=
  ⟨rfl, generate_html_report_always_fails [] output_file now fs⟩

end Spec2Proof
